import Mathlib

/-
Verification of the slurm-gitlab-executor driver (src/driver/driver.py and
src/driver/slurm_interface.py) against its natural-language specification.

Conventions of the shallow embedding:
- Python `str` values are modelled as Lean `String` where only equality and
  concatenation matter, and as `List Char` where the code indexes, splits or
  compares lexicographically (Python compares strings by code point, which is
  exactly the lexicographic order on the character lists).
- Fallible Python code (exceptions) is modelled with `Except`.
- Time-dependent predicates polled by the driver are modelled as functions
  `Nat → Bool` giving the outcome of the i-th evaluation of the predicate.
-/

/-- Embedding of `wait_until` (driver.py, lines 14-20):
```
def wait_until(condition, timeout_seconds=10):
    while timeout_seconds != 0:
        if condition():
            return True
        time.sleep(1)
        timeout_seconds -= 1
    return False
```
The i-th evaluation of `condition()` is `condition i`.  The result records
the returned Bool, the number of evaluations of `condition` performed, and
the number of `time.sleep(1)` calls performed, in this order. -/
def wait_until_run (condition : Nat → Bool) : Nat → Bool × Nat × Nat
  | 0 => (false, 0, 0)
  | t + 1 =>
    if condition 0 then (true, 1, 0)
    else
      let r := wait_until_run (fun i => condition (i + 1)) t
      (r.1, r.2.1 + 1, r.2.2 + 1)

lemma wait_until_run_succ_neg (t : Nat) (p : Nat → Bool) (h0 : ¬ p 0 = true) :
    wait_until_run p (t + 1)
      = ((wait_until_run (fun i => p (i + 1)) t).1,
         (wait_until_run (fun i => p (i + 1)) t).2.1 + 1,
         (wait_until_run (fun i => p (i + 1)) t).2.2 + 1) := by
  simp [wait_until_run, h0]

lemma wait_until_run_false (T : Nat) (p : Nat → Bool)
    (h : (wait_until_run p T).1 = false) :
    (wait_until_run p T).2.1 = T ∧ ∀ i, i < T → p i = false := by
  induction T generalizing p with
  | zero => exact ⟨rfl, fun i hi => absurd hi (Nat.not_lt_zero i)⟩
  | succ t ih =>
    by_cases h0 : p 0
    · simp [wait_until_run, h0] at h
    · rw [wait_until_run_succ_neg t p h0] at h ⊢
      obtain ⟨he, hall⟩ := ih (fun i => p (i + 1)) h
      refine ⟨by simp [he], fun i hi => ?_⟩
      cases i with
      | zero => simpa using h0
      | succ j => exact hall j (by omega)

lemma wait_until_run_true (T : Nat) (p : Nat → Bool)
    (h : (wait_until_run p T).1 = true) :
    1 ≤ (wait_until_run p T).2.1 ∧ (wait_until_run p T).2.1 ≤ T ∧
      p ((wait_until_run p T).2.1 - 1) = true := by
  induction T generalizing p with
  | zero => simp [wait_until_run] at h
  | succ t ih =>
    by_cases h0 : p 0
    · simp [wait_until_run, h0]
    · rw [wait_until_run_succ_neg t p h0] at h ⊢
      obtain ⟨h1, h2, h3⟩ := ih (fun i => p (i + 1)) h
      refine ⟨by simp, by simpa using h2, ?_⟩
      simp only [Nat.add_sub_cancel]
      have he : (wait_until_run (fun i => p (i + 1)) t).2.1
              = ((wait_until_run (fun i => p (i + 1)) t).2.1 - 1) + 1 := by omega
      rw [he]
      exact h3

/-- Embedding of the `SLURMJobState` enumeration (slurm_interface.py, lines
35-55).  The Python enumeration has exactly these fifteen members; note that
it has no `UNKNOWN` member. -/
inductive SLURMJobState where
  | BOOT_FAIL
  | CANCELLED
  | COMPLETED
  | DEADLINE
  | FAILED
  | NODE_FAIL
  | OUT_OF_MEMORY
  | PENDING
  | PREEMPTED
  | RUNNING
  | REQUEUED
  | RESIZING
  | REVOKED
  | SUSPENDED
  | TIMEOUT
  deriving DecidableEq, Repr

/-- Embedding of `SLURMJobState._get_equivalent_states` (slurm_interface.py,
lines 57-90): the bidirectional code table, as the dict's key-value pairs in
insertion order. -/
def equivalent_states : List (String × SLURMJobState) :=
  [("BOOT_FAIL", .BOOT_FAIL), ("BF", .BOOT_FAIL),
   ("CANCELLED", .CANCELLED), ("CA", .CANCELLED),
   ("COMPLETED", .COMPLETED), ("CD", .COMPLETED),
   ("DEADLINE", .DEADLINE), ("DL", .DEADLINE),
   ("FAILED", .FAILED), ("F", .FAILED),
   ("NODE_FAIL", .NODE_FAIL), ("NF", .NODE_FAIL),
   ("OUT_OF_MEMORY", .OUT_OF_MEMORY), ("OOM", .OUT_OF_MEMORY),
   ("PENDING", .PENDING), ("PD", .PENDING),
   ("PREEMPTED", .PREEMPTED), ("PR", .PREEMPTED),
   ("RUNNING", .RUNNING), ("R", .RUNNING),
   ("REQUEUED", .REQUEUED), ("RQ", .REQUEUED),
   ("RESIZING", .RESIZING), ("RS", .RESIZING),
   ("REVOKED", .REVOKED), ("RV", .REVOKED),
   ("SUSPENDED", .SUSPENDED), ("S", .SUSPENDED),
   ("TIMEOUT", .TIMEOUT), ("TO", .TIMEOUT)]

/-- Embedding of `SLURMJobState.from_string` (slurm_interface.py, lines
92-94): `dict.get(state, None)` is lookup of the key in the table, `none`
when the key is absent. -/
def SLURMJobState.from_string (state : String) : Option SLURMJobState :=
  equivalent_states.lookup state

/-- Embedding of `SLURMJobState.to_string` (slurm_interface.py, lines
96-100): iterate over the table in insertion order and return the first key
mapped to `self`; raising `ValueError` when no key matches is modelled as
`none`. -/
def SLURMJobState.to_string (s : SLURMJobState) : Option String :=
  (equivalent_states.find? (fun kv => kv.2 == s)).map (·.1)

/-- Keys recognized by the code table. -/
def equivalent_states_keys : List String := equivalent_states.map Prod.fst

lemma lookup_eq_none_of_not_mem_keys {α : Type} [DecidableEq α]
    (l : List (String × α)) (s : String) (h : s ∉ l.map Prod.fst) :
    l.lookup s = none := by
  induction l with
  | nil => rfl
  | cons kv t ih =>
    simp only [List.map_cons, List.mem_cons] at h
    push_neg at h
    simp [List.lookup, beq_eq_false_iff_ne.mpr h.1, ih h.2]

/-- Embedding of `SLURMJobRequestData.__init__` (slurm_interface.py, lines
124-170): a mandatory job name plus the optional resource parameters, in the
source's order.  The Python keyword `export` is spelled `export_` because
`export` is reserved in Lean. -/
structure SLURMJobRequestData where
  job_name : String
  nodes : Option String
  mem : Option String
  mem_bind : Option String
  mem_per_cpu : Option String
  cpus_per_task : Option String
  n_tasks : Option String
  time_limit : Option String
  time_min : Option String
  exclusive : Bool
  network : Option String
  contiguous : Bool
  partition : Option String
  power : Option String
  priority : Option String
  nice : Option String
  comment : Option String
  chdir : Option String
  export_ : Option String
  stdout_file : Option String
  stderr_file : Option String

/-- Embedding of `SLURMJobRequestData.get_cli_parameters` (slurm_interface.py,
lines 172-196): the list of 21 conditional entries (Python `None` entries are
the `none`s) followed by the `x is not None` filter, which is `filterMap id`. -/
def SLURMJobRequestData.get_cli_parameters (c : SLURMJobRequestData) : List String :=
  ([some ("--job-name=" ++ c.job_name),
    c.nodes.map (fun v => "--nodes=" ++ v),
    c.mem.map (fun v => "--mem=" ++ v),
    c.mem_bind.map (fun v => "--mem-bind=" ++ v),
    c.mem_per_cpu.map (fun v => "--mem-per-cpu=" ++ v),
    c.cpus_per_task.map (fun v => "--cpus-per-task=" ++ v),
    c.n_tasks.map (fun v => "--ntasks=" ++ v),
    c.time_limit.map (fun v => "--time=" ++ v),
    c.time_min.map (fun v => "--time-min=" ++ v),
    if c.exclusive then some "--exclusive" else none,
    c.network.map (fun v => "--network=" ++ v),
    if c.contiguous then some "--contiguous" else none,
    c.partition.map (fun v => "--partition=" ++ v),
    c.power.map (fun v => "--power=" ++ v),
    c.priority.map (fun v => "--priority=" ++ v),
    c.nice.map (fun v => "--nice=" ++ v),
    c.comment.map (fun v => "--comment=\"" ++ v ++ "\""),
    c.chdir.map (fun v => "--chdir=" ++ v),
    c.export_.map (fun v => "--export=" ++ v),
    c.stdout_file.map (fun v => "--output=" ++ v),
    c.stderr_file.map (fun v => "--error=" ++ v)]).filterMap id

/-- Embedding of `SLURMJobRequestData.to_sbatch_file_string` (slurm_interface.py,
lines 198-204): `#!/bin/bash`, a blank line, one `#SBATCH <param>` line per
CLI parameter, a blank line, then the script lines, joined with newlines.
(The Python `assert len(script_lines) > 0` is vacuous at every call site.) -/
def SLURMJobRequestData.to_sbatch_file_string
    (c : SLURMJobRequestData) (script_lines : List String) : String :=
  String.intercalate "\n"
    (["#!/bin/bash", ""]
      ++ c.get_cli_parameters.map (fun x => "#SBATCH " ++ x)
      ++ [""] ++ script_lines)

/-- The flag of a rendered CLI parameter: the characters before the first
`=` (the whole parameter for the bare boolean flags).  Distinct request
fields render parameters with distinct flags, so counting parameters by flag
counts the directives that each field contributed. -/
def flagOf (s : String) : String := ⟨s.data.takeWhile (fun c => c != '=')⟩

/-- The 21 fields of a `SLURMJobRequestData`, abstractly. -/
inductive SField where
  | jobName | nodes | mem | memBind | memPerCpu | cpusPerTask | nTasks
  | timeLimit | timeMin | exclusive | network | contiguous | partition
  | power | priority | nice | comment | chdir | export_ | stdoutFile
  | stderrFile
  deriving DecidableEq, Repr

/-- All fields, in rendering order. -/
def SField.all : List SField :=
  [.jobName, .nodes, .mem, .memBind, .memPerCpu, .cpusPerTask, .nTasks,
   .timeLimit, .timeMin, .exclusive, .network, .contiguous, .partition,
   .power, .priority, .nice, .comment, .chdir, .export_, .stdoutFile,
   .stderrFile]

/-- The command-line flag each field renders to. -/
def SField.flag : SField → String
  | .jobName => "--job-name"
  | .nodes => "--nodes"
  | .mem => "--mem"
  | .memBind => "--mem-bind"
  | .memPerCpu => "--mem-per-cpu"
  | .cpusPerTask => "--cpus-per-task"
  | .nTasks => "--ntasks"
  | .timeLimit => "--time"
  | .timeMin => "--time-min"
  | .exclusive => "--exclusive"
  | .network => "--network"
  | .contiguous => "--contiguous"
  | .partition => "--partition"
  | .power => "--power"
  | .priority => "--priority"
  | .nice => "--nice"
  | .comment => "--comment"
  | .chdir => "--chdir"
  | .export_ => "--export"
  | .stdoutFile => "--output"
  | .stderrFile => "--error"

/-- Whether a field is present in a given request (the job name is always
present; boolean fields are present when set; optional fields when `some`). -/
def SField.present (f : SField) (c : SLURMJobRequestData) : Bool :=
  match f with
  | .jobName => true
  | .nodes => c.nodes.isSome
  | .mem => c.mem.isSome
  | .memBind => c.mem_bind.isSome
  | .memPerCpu => c.mem_per_cpu.isSome
  | .cpusPerTask => c.cpus_per_task.isSome
  | .nTasks => c.n_tasks.isSome
  | .timeLimit => c.time_limit.isSome
  | .timeMin => c.time_min.isSome
  | .exclusive => c.exclusive
  | .network => c.network.isSome
  | .contiguous => c.contiguous
  | .partition => c.partition.isSome
  | .power => c.power.isSome
  | .priority => c.priority.isSome
  | .nice => c.nice.isSome
  | .comment => c.comment.isSome
  | .chdir => c.chdir.isSome
  | .export_ => c.export_.isSome
  | .stdoutFile => c.stdout_file.isSome
  | .stderrFile => c.stderr_file.isSome

/-- The parameter entry each field contributes to the list built by
`get_cli_parameters`, before the `is not None` filter. -/
def SField.directive (f : SField) (c : SLURMJobRequestData) : Option String :=
  match f with
  | .jobName => some ("--job-name=" ++ c.job_name)
  | .nodes => c.nodes.map (fun v => "--nodes=" ++ v)
  | .mem => c.mem.map (fun v => "--mem=" ++ v)
  | .memBind => c.mem_bind.map (fun v => "--mem-bind=" ++ v)
  | .memPerCpu => c.mem_per_cpu.map (fun v => "--mem-per-cpu=" ++ v)
  | .cpusPerTask => c.cpus_per_task.map (fun v => "--cpus-per-task=" ++ v)
  | .nTasks => c.n_tasks.map (fun v => "--ntasks=" ++ v)
  | .timeLimit => c.time_limit.map (fun v => "--time=" ++ v)
  | .timeMin => c.time_min.map (fun v => "--time-min=" ++ v)
  | .exclusive => if c.exclusive then some "--exclusive" else none
  | .network => c.network.map (fun v => "--network=" ++ v)
  | .contiguous => if c.contiguous then some "--contiguous" else none
  | .partition => c.partition.map (fun v => "--partition=" ++ v)
  | .power => c.power.map (fun v => "--power=" ++ v)
  | .priority => c.priority.map (fun v => "--priority=" ++ v)
  | .nice => c.nice.map (fun v => "--nice=" ++ v)
  | .comment => c.comment.map (fun v => "--comment=\"" ++ v ++ "\"")
  | .chdir => c.chdir.map (fun v => "--chdir=" ++ v)
  | .export_ => c.export_.map (fun v => "--export=" ++ v)
  | .stdoutFile => c.stdout_file.map (fun v => "--output=" ++ v)
  | .stderrFile => c.stderr_file.map (fun v => "--error=" ++ v)

lemma params_as_fields (c : SLURMJobRequestData) :
    c.get_cli_parameters = (SField.all.map (fun f => f.directive c)).filterMap id := rfl

lemma directive_isSome (c : SLURMJobRequestData) (f : SField) :
    (f.directive c).isSome = f.present c := by
  cases f <;>
    simp only [SField.directive, SField.present, Option.isSome_map'] <;>
    first
      | rfl
      | (cases c.exclusive <;> rfl)
      | (cases c.contiguous <;> rfl)

lemma flagOf_directive (c : SLURMJobRequestData) (f : SField) (d : String)
    (h : f.directive c = some d) : flagOf d = f.flag := by
  cases f <;> simp only [SField.directive] at h <;>
    first
      | (obtain ⟨v, -, rfl⟩ := Option.map_eq_some'.mp h; rfl)
      | (simp only [Option.some.injEq] at h; subst h; rfl)
      | (split at h
         · simp only [Option.some.injEq] at h; subst h; rfl
         · exact Option.noConfusion h)

lemma map_flag_filterMap (c : SLURMJobRequestData) (F : List SField) :
    ((F.map (fun f => f.directive c)).filterMap id).map flagOf
      = (F.map (fun f => if f.present c then [f.flag] else [])).flatten := by
  induction F with
  | nil => rfl
  | cons f F ih =>
    cases hd : f.directive c with
    | none =>
      have hp : f.present c = false := by rw [← directive_isSome c f, hd]; rfl
      rw [List.map_cons, List.filterMap_cons_none (by simpa using hd), ih]
      simp [hp]
    | some d =>
      have hp : f.present c = true := by rw [← directive_isSome c f, hd]; rfl
      have hf := flagOf_directive c f d hd
      rw [List.map_cons, List.filterMap_cons_some (by simpa using hd),
          List.map_cons, ih, hf]
      simp [hp]

lemma count_join_zero {α β : Type} [DecidableEq β] (F : List α)
    (flag : α → β) (pres : α → Bool) (a : β) (h : ∀ f ∈ F, flag f ≠ a) :
    ((F.map (fun f => if pres f then [flag f] else [])).flatten).count a = 0 := by
  induction F with
  | nil => rfl
  | cons f F ih =>
    have h1 : flag f ≠ a := h f (List.mem_cons_self f F)
    have h2 : ∀ g ∈ F, flag g ≠ a := fun g hg => h g (List.mem_cons_of_mem f hg)
    cases hp : pres f <;>
      simp [List.count_append, List.count_cons, ih h2, h1, hp]

lemma count_join_distinct {α β : Type} [DecidableEq β] (F : List α)
    (flag : α → β) (pres : α → Bool) (f₀ : α) (hmem : f₀ ∈ F)
    (hnd : (F.map flag).Nodup) :
    ((F.map (fun f => if pres f then [flag f] else [])).flatten).count (flag f₀)
      = if pres f₀ then 1 else 0 := by
  induction F with
  | nil => exact absurd hmem (List.not_mem_nil f₀)
  | cons f F ih =>
    simp only [List.map_cons, List.nodup_cons] at hnd
    rcases List.mem_cons.mp hmem with rfl | hmem'
    · have hzero : ∀ g ∈ F, flag g ≠ flag f₀ := by
        intro g hg hEq
        exact hnd.1 (hEq ▸ List.mem_map_of_mem flag hg)
      cases hp : pres f₀ <;>
        simp [List.count_append, List.count_cons,
              count_join_zero F flag pres (flag f₀) hzero, hp]
    · have hne : flag f ≠ flag f₀ := by
        intro hEq
        exact hnd.1 (hEq ▸ List.mem_map_of_mem flag hmem')
      cases hp : pres f <;>
        simp [List.count_append, List.count_cons, ih hmem' hnd.2, hne, hp]

/-- One poll cycle's observation of the execution log file in
`GitLabPhases.run` (driver.py, lines 289-303): the value of
`os.path.getmtime(script_log_file)` and the file's content at that moment.
Text is modelled as `List Char`; offsets count characters. -/
structure LogObs where
  mtime : Nat
  content : List Char

/-- The loop state of `GitLabPhases.run`: `read_bytes` and
`last_read_timestamp` (driver.py, lines 289-290), initially both `0`. -/
structure DrainState where
  read_bytes : Nat
  last_read_timestamp : Nat

/-- Embedding of one in-loop drain check (driver.py, lines 296-303): if the
observed modification time differs from the last recorded one, record it,
seek to `read_bytes`, read to end of file, forward those bytes, and set
`read_bytes` to the new end; otherwise do nothing. -/
def drain_step (s : DrainState) (o : LogObs) : DrainState × List Char :=
  if o.mtime ≠ s.last_read_timestamp then
    (⟨o.content.length, o.mtime⟩, o.content.drop s.read_bytes)
  else (s, [])

/-- The in-loop drain checks over a sequence of poll-cycle observations,
collecting everything forwarded to the output sink, in order. -/
def drain_loop (s : DrainState) : List LogObs → DrainState × List Char
  | [] => (s, [])
  | o :: rest =>
    let r1 := drain_step s o
    let r2 := drain_loop r1.1 rest
    (r2.1, r1.2 ++ r2.2)

/-- Embedding of the whole log-forwarding behaviour of `GitLabPhases.run`
(driver.py, lines 289-309): the in-loop drains over the observations
`obss`, followed by the final unconditional drain on loop exit, which reads
from the last `read_bytes` to the end of the final file content `final`.
The result is the full sequence of bytes forwarded to the output sink. -/
def run_log_forwarding (obss : List LogObs) (final : List Char) : List Char :=
  let r := drain_loop ⟨0, 0⟩ obss
  r.2 ++ final.drop r.1.read_bytes

/-- Length of the first observed content, or of the final content when no
observation remains: an upper bound for a reachable `read_bytes`. -/
def obs_head_len : List LogObs → List Char → Nat
  | [], f => f.length
  | o :: _, _ => o.content.length

lemma drop_append_drop {c f : List Char} (k : Nat) (hpre : c <+: f)
    (hk : k ≤ c.length) : c.drop k ++ f.drop c.length = f.drop k := by
  obtain ⟨r, rfl⟩ := hpre
  rw [List.drop_left, List.drop_append_of_le_length hk]

lemma drain_loop_spec (obss : List LogObs) (final : List Char) (k t : Nat)
    (hfin : ∀ o ∈ obss, o.content <+: final)
    (hchain : List.Chain' (fun a b => a.content <+: b.content) obss)
    (hk : k ≤ obs_head_len obss final) :
    (drain_loop ⟨k, t⟩ obss).2
        ++ final.drop (drain_loop ⟨k, t⟩ obss).1.read_bytes
      = final.drop k := by
  induction obss generalizing k t with
  | nil => simp [drain_loop]
  | cons o rest ih =>
    have hofin : o.content <+: final := hfin o (List.mem_cons_self o rest)
    have hfin' : ∀ p ∈ rest, p.content <+: final :=
      fun p hp => hfin p (List.mem_cons_of_mem o hp)
    have hchain' : List.Chain' (fun a b => a.content <+: b.content) rest :=
      hchain.tail
    have hklen : k ≤ o.content.length := hk
    have hnext : o.content.length ≤ obs_head_len rest final := by
      cases rest with
      | nil => exact hofin.length_le
      | cons p rest' => exact (List.chain'_cons.mp hchain).1.length_le
    by_cases hm : o.mtime ≠ t
    · have hstep : drain_step ⟨k, t⟩ o
          = (⟨o.content.length, o.mtime⟩, o.content.drop k) := by
        simp [drain_step, hm]
      simp only [drain_loop, hstep, List.append_assoc]
      rw [ih o.content.length o.mtime hfin' hchain' hnext]
      exact drop_append_drop k hofin hklen
    · have hstep : drain_step ⟨k, t⟩ o = (⟨k, t⟩, []) := by
        simp [drain_step, hm]
      have hk' : k ≤ obs_head_len rest final := le_trans hklen hnext
      simp only [drain_loop, hstep, List.nil_append]
      exact ih k t hfin' hchain' hk'

/-- Python list indexing `l[i]` for a nonnegative index: raises `IndexError`
when the index is out of range. -/
def pyIndex {α : Type} (l : List α) (i : Nat) : Except String α :=
  match l.get? i with
  | some x => .ok x
  | none => .error "IndexError"

/-- The whitespace characters removed by Python `str.strip()`. -/
def isPySpace (c : Char) : Bool :=
  c == ' ' || c == '\t' || c == '\n' || c == '\r' || c == '\x0b' || c == '\x0c'

/-- Python `str.strip()`: remove whitespace from both ends. -/
def pyStrip (l : List Char) : List Char :=
  ((l.dropWhile isPySpace).reverse.dropWhile isPySpace).reverse

/-- Python `str.split(sep)` for a one-character separator: always returns at
least one (possibly empty) piece; splitting the empty string yields one
empty piece. -/
def splitOnChar (sep : Char) : List Char → List (List Char)
  | [] => [[]]
  | c :: rest =>
    match splitOnChar sep rest with
    | [] => [[c]]
    | h :: t => if c = sep then [] :: h :: t else (c :: h) :: t

/-- Python `needle in haystack` on strings: substring containment. -/
def py_in (needle haystack : List Char) : Bool := decide (needle <:+: haystack)

/-- A Python list comprehension whose condition may raise: evaluates the
condition on each element in order, propagating the first exception. -/
def filterExcept {ε α : Type} (p : α → Except ε Bool) : List α → Except ε (List α)
  | [] => .ok []
  | x :: xs => do
    let b ← p x
    let rest ← filterExcept p xs
    pure (if b then x :: rest else rest)

/-- A mapping whose function may raise: first exception propagates. -/
def mapExcept {ε α β : Type} (g : α → Except ε β) : List α → Except ε (List β)
  | [] => .ok []
  | x :: xs => do
    let y ← g x
    let rest ← mapExcept g xs
    pure (y :: rest)

/-- Python `max(h :: t, key=...)` over items paired with their precomputed
keys: scans left to right and replaces the current best only on a strictly
greater key, so the earliest item wins ties, exactly like CPython's `max`.
Keys are compared lexicographically by code point, like Python `str`. -/
def pyMaxBy (h : List Char × List Char) (t : List (List Char × List Char)) :
    List Char × List Char :=
  t.foldl (fun best x => if best.2 < x.2 then x else best) h

/-- Embedding of `SLURMInterface.get_id_from_name` (slurm_interface.py,
lines 219-239).  Its external input is the result of running
`sacct --name "<job_name>" --noheader -P --format=JobID,JobName,Submit`:
the process return code and its (stripped) standard output.  Each output
line is `JobID|JobName|Submit`.  The Python code:
- returns `None` when the return code is nonzero;
- splits stdout on newlines (never an empty list, so the `len == 0` guard
  is dead code);
- keeps the lines whose second `|`-field contains `job_name` — evaluating
  that field raises `IndexError` when a line has fewer than two fields,
  which happens in particular for the single empty line produced by empty
  stdout;
- returns `None` when no line survives the filter;
- otherwise returns the first `|`-field of the line with the maximal third
  `|`-field (the latest `Submit` timestamp, lexicographically). -/
def SLURMInterface.get_id_from_name (job_name : List Char) (retcode : Int)
    (stdout : List Char) : Except String (Option (List Char)) := do
  if retcode ≠ 0 then return none
  let stdout_lines := splitOnChar '\n' stdout
  if stdout_lines.length = 0 then return none
  let filtered ← filterExcept (fun x => do
      let f ← pyIndex (splitOnChar '|' (pyStrip x)) 1
      pure (py_in job_name f)) stdout_lines
  if filtered.length = 0 then return none
  let keyed ← mapExcept (fun x => do
      let k ← pyIndex (splitOnChar '|' (pyStrip x)) 2
      pure (x, k)) filtered
  match keyed with
  | [] => Except.error "ValueError"
  | h :: t =>
    match splitOnChar '|' (pyStrip (pyMaxBy h t).1) with
    | [] => Except.error "IndexError"
    | p :: _ => return some p

/-- The fixed content `SLURMIdleJob.mark_stop` writes into the stop-sentinel
file `batch.gitlab_ci_exit` (driver.py, line 186), verbatim. -/
def stop_sentinel_content : String :=
  "This file  is used to instruct the SLURM job to stop"

/-- Embedding of `SLURMIdleJob.mark_stop` (driver.py, lines 183-187): open
the stop-sentinel file for writing and write the fixed message.  The
filesystem is reduced to the sentinel file's content (`prior`, `none` when
absent) and to whether the write can succeed (`writable`).  The Python code
has no exception handler, so a failing `open`/`write` raises `OSError` to
the caller. -/
def SLURMIdleJob.mark_stop (writable : Bool) (_prior : Option String) :
    Except String (Option String) :=
  if writable then .ok (some stop_sentinel_content) else .error "OSError"

/-- Outcome of `SLURMIdleJob.try_stop` (driver.py, lines 189-197). -/
structure TryStopResult where
  sentinel_write_attempted : Bool
  cancel_called : Bool
  deriving DecidableEq, Repr

/-- Embedding of `SLURMIdleJob.try_stop` (driver.py, lines 189-197):
`mark_stop`, then `wait_until(lambda: not self.is_running(), timeout)`,
then, in the `finally` block, one further `is_running()` check deciding
whether `scancel` is issued.  `running i` is the outcome of the i-th
`is_running()` accounting query; the wait's checks are queries `0` to
`e - 1` where `e` is the number of evaluations the wait performed, and the
`finally` check is query `e`.  The sentinel write is assumed to succeed
(claim C8 treats the failing write). -/
def SLURMIdleJob.try_stop (running : Nat → Bool) (timeout : Nat) : TryStopResult :=
  let w := wait_until_run (fun i => !(running i)) timeout
  { sentinel_write_attempted := true, cancel_called := running w.2.1 }

/-- The three precondition checks `SLURMIdleJob.create` performs on the
idle-loop payload `idle_script.sh` (driver.py, lines 100-109):
`os.path.isfile`, `os.access(..., X_OK)`, `os.access(..., R_OK)`. -/
structure IdlePayloadStatus where
  is_file : Bool
  executable : Bool
  readable : Bool
  deriving DecidableEq, Repr

/-- The externally visible side effects of `SLURMIdleJob.create`. -/
structure CreateEffects where
  critical_logged : Bool
  wrote_batch_script : Bool
  submitted : Bool
  deriving DecidableEq, Repr

/-- Embedding of `SLURMIdleJob.create` (driver.py, lines 93-128): check the
idle payload (file exists / executable / readable, in this order), logging
a critical message and returning `None` on the first failure, before any
batch script is written and before anything is submitted; otherwise write
the batch script, submit it (`sbatch_result` is the job id `sbatch`
returned, `none` when submission failed), wait up to 120 cycles for the job
id to become queryable (`exists_obs i` is the i-th `SLURMInterface.exists`
query), and return a handle carrying the job id only if one further
existence query succeeds. -/
def SLURMIdleJob.create (p : IdlePayloadStatus) (sbatch_result : Option String)
    (exists_obs : Nat → Bool) : Option (Option String) × CreateEffects :=
  if !p.is_file then (none, ⟨true, false, false⟩)
  else if !p.executable then (none, ⟨true, false, false⟩)
  else if !p.readable then (none, ⟨true, false, false⟩)
  else
    let w := wait_until_run exists_obs 120
    (if exists_obs w.2.1 then some sbatch_result else none, ⟨false, true, true⟩)

/-- Workspace path of the dispatched script (driver.py, lines 147-148). -/
def SLURMIdleJob.get_execution_script_path (work_dir script_name : String) : String :=
  work_dir ++ "/" ++ script_name ++ ".gitlab_ci_step_script"

/-- Workspace path of the completion sentinel (driver.py, lines 150-151). -/
def SLURMIdleJob.get_execution_executed_path (work_dir script_name : String) : String :=
  SLURMIdleJob.get_execution_script_path work_dir script_name ++ ".executed"

/-- Workspace path of the log file (driver.py, lines 153-154). -/
def SLURMIdleJob.get_execution_logfile_path (work_dir script_name : String) : String :=
  SLURMIdleJob.get_execution_script_path work_dir script_name ++ ".log"

/-- The observable state `execute_script` leaves behind: the allocation's
`current_execution` field, the content of the canonical script file, and
the content of the temporary `.tmp` file (`none` when absent). -/
structure ExecDispatchState where
  current_execution : Option String
  script_file : Option String
  tmp_file : Option String
  deriving DecidableEq, Repr

/-- Embedding of `SLURMIdleJob.execute_script` (driver.py, lines 156-181).
`source_read` is `none` when no `source_script_path` was given, and
otherwise the outcome of reading that file (`Except.error` when the read
raises).  The Python code sets `self.current_execution = script_name`
first; then, in a `try/finally`, reads the source content into
`script_content` (initialised to the empty string); the `finally` block
always writes `script_content` to a `.tmp` file and atomically renames it
onto the canonical script path — so on a read error the canonical script
file is still created, with empty content, after which the exception
propagates to the caller. -/
def SLURMIdleJob.execute_script (work_dir script_name : String)
    (source_read : Option (Except String String)) :
    Except String (String × String) × ExecDispatchState :=
  let read_result : Except String String :=
    match source_read with
    | none => .ok ""
    | some r => r
  let script_content : String :=
    match read_result with
    | .ok c => c
    | .error _ => ""
  let st : ExecDispatchState :=
    { current_execution := some script_name
      script_file := some script_content
      tmp_file := none }
  match read_result with
  | .ok _ =>
      (.ok (SLURMIdleJob.get_execution_executed_path work_dir script_name,
            SLURMIdleJob.get_execution_logfile_path work_dir script_name), st)
  | .error e => (.error e, st)

/-- Claim C1: over any sequence of poll cycles, the execution loop of
`GitLabPhases.run` forwards each byte range of the log file to the output
sink exactly once and in file order — whenever the observed modification
time differs from the last recorded one it seeks to the last read offset,
reads to end of file, forwards those bytes and advances the offset, and one
final drain pass on loop exit forwards anything appended after the last
in-loop check.  Formally: if the observed contents are successive append
extensions of one another (`hmono`) and of the final file content
(`happend`), then the concatenation of everything forwarded equals the
final content exactly — every byte exactly once, in order, no matter how
many discrete appends produced it or how many drains were skipped for an
unchanged modification time. -/
theorem C1_log_forwarded_exactly_once (obss : List LogObs) (final : List Char)
    (happend : ∀ o ∈ obss, o.content <+: final)
    (hmono : List.Chain' (fun a b => a.content <+: b.content) obss) :
    run_log_forwarding obss final = final := by
  have h := drain_loop_spec obss final 0 0 happend hmono (Nat.zero_le _)
  simpa [run_log_forwarding] using h

/-- Witness for C1: the spec's own example — `echo hi` reaching the log
through three separate appends observed on three poll cycles, plus bytes
appended after the sentinel appeared, is forwarded exactly once. -/
theorem C1_log_forwarded_exactly_once_witness :
    run_log_forwarding
        [⟨5, "ec".toList⟩, ⟨7, "echo ".toList⟩, ⟨9, "echo hi".toList⟩]
        "echo hi\n".toList
      = "echo hi\n".toList := by
  apply C1_log_forwarded_exactly_once
  · intro o ho
    simp only [List.mem_cons, List.not_mem_nil, or_false] at ho
    rcases ho with rfl | rfl | rfl
    · exact ⟨"ho hi\n".toList, rfl⟩
    · exact ⟨"hi\n".toList, rfl⟩
    · exact ⟨"\n".toList, rfl⟩
  · exact List.chain'_cons.mpr ⟨⟨"ho ".toList, rfl⟩,
      List.chain'_cons.mpr ⟨⟨"hi".toList, rfl⟩, List.chain'_singleton _⟩⟩

/-- Claim C2 counterexample: `wait_until(condition, 0)` does not evaluate
the predicate at all: with the constantly-true predicate it performs zero
evaluations and returns `False`, not the claimed single evaluation whose
(true) result would be returned. -/
theorem C2_waiter_zero_counterexample :
    wait_until_run (fun _ => true) 0 = (false, 0, 0)
      ∧ wait_until_run (fun _ => true) 0 ≠ (true, 1, 0) := by
  exact ⟨rfl, by decide⟩

/-- Claim C2, amended: `wait_until(p, 0)` performs zero evaluations of `p`,
no sleep, and returns `False` regardless of `p`; and for every nonzero
timeout, if the first evaluation of `p` is true the call returns `True`
after exactly one evaluation and no sleep. -/
theorem C2_waiter_single_shot (p : Nat → Bool) :
    wait_until_run p 0 = (false, 0, 0)
      ∧ ∀ T : Nat, p 0 = true → wait_until_run p (T + 1) = (true, 1, 0) :=
  ⟨rfl, fun T h => by simp [wait_until_run, h]⟩

/-- Witness for C2: at the constantly-true predicate and timeout 5, the
call returns true after exactly one evaluation and no sleep. -/
theorem C2_waiter_single_shot_witness :
    wait_until_run (fun _ => true) 5 = (true, 1, 0) :=
  (C2_waiter_single_shot (fun _ => true)).2 4 rfl

/-- Claim C3 (code bug): when `sacct` succeeds (return code 0) but reports
no job — empty standard output, the normal outcome when no job of the given
name exists — `get_id_from_name` does not return `None` as its docstring
and the claim state: splitting the empty output yields one empty line, the
name filter evaluates `"".strip().split("|")[1]` on it, and that raises
`IndexError`, which propagates to `attach`'s caller. -/
theorem C3_attach_raises_on_empty_sacct_output :
    SLURMInterface.get_id_from_name "jobname".toList 0 "".toList
      = Except.error "IndexError" := rfl

/-- Claim C4 counterexample: the job-state code table does not map
unrecognized codes to an `UNKNOWN` enumeration value — the enumeration has
no such member and `from_string` yields no state at all for an unrecognized
code. -/
theorem C4_unknown_code_counterexample :
    SLURMJobState.from_string "NOSUCHCODE" = none
      ∧ ∀ v : SLURMJobState, SLURMJobState.from_string "NOSUCHCODE" ≠ some v := by
  have h0 : SLURMJobState.from_string "NOSUCHCODE" = none := by decide
  exact ⟨h0, fun v h => Option.noConfusion (h0 ▸ h)⟩

/-- Claim C4, amended: deriving a job state via the bidirectional code
table never raises: every recognized short or long code maps to its
enumeration value, and every unrecognized code maps to `none` (no state) —
not to an `UNKNOWN` member, which the enumeration does not have. -/
theorem C4_code_table_total :
    (∀ kv ∈ equivalent_states, SLURMJobState.from_string kv.1 = some kv.2)
      ∧ ∀ s : String, s ∉ equivalent_states_keys →
          SLURMJobState.from_string s = none := by
  refine ⟨by decide, fun s hs => ?_⟩
  exact lookup_eq_none_of_not_mem_keys equivalent_states s hs

/-- Witness for C4: the short code `BF` parses to `BOOT_FAIL`, and the
unrecognized code `ZZZ` parses to `none`. -/
theorem C4_code_table_total_witness :
    SLURMJobState.from_string "BF" = some SLURMJobState.BOOT_FAIL
      ∧ SLURMJobState.from_string "ZZZ" = none :=
  ⟨C4_code_table_total.1 ("BF", SLURMJobState.BOOT_FAIL) (by decide),
   C4_code_table_total.2 "ZZZ" (by decide)⟩

/-- Claim C5: the rendered submission artifact is `#!/bin/bash`, a blank
line, the `#SBATCH` directives, a blank line, then the payload inclusion
line; and the directives contain exactly one directive per present field —
in particular exactly one job-name directive, since the job name is always
present — and none for an absent field.  Directives are identified by their
flag (the characters before the first `=`; the whole parameter for the bare
boolean flags), which determines the contributing field uniquely: the
second conjunct counts, for every field, the directives carrying that
field's flag.  The third conjunct checks the directive text itself: each
present field's rendered `<flag>=<value>` parameter (bare flag for a set
boolean) occurs among the parameters. -/
theorem C5_submission_artifact (c : SLURMJobRequestData) (payload : String) :
    c.to_sbatch_file_string [payload]
        = String.intercalate "\n"
            (["#!/bin/bash", ""]
              ++ c.get_cli_parameters.map (fun x => "#SBATCH " ++ x)
              ++ ["", payload])
      ∧ (∀ f : SField,
          (c.get_cli_parameters.map flagOf).count f.flag
            = if f.present c then 1 else 0)
      ∧ (∀ f : SField, ∀ d : String, f.directive c = some d →
          d ∈ c.get_cli_parameters) := by
  refine ⟨by simp [SLURMJobRequestData.to_sbatch_file_string], fun f => ?_,
    fun f d h => ?_⟩
  · rw [params_as_fields, map_flag_filterMap]
    exact count_join_distinct SField.all SField.flag (fun g => g.present c) f
      (by cases f <;> decide) (by decide)
  · rw [params_as_fields]
    exact List.mem_filterMap.mpr
      ⟨f.directive c, List.mem_map_of_mem _ (by cases f <;> decide),
       by simpa using h⟩

/-- Witness for C5: a request with only a node count set renders the
`--nodes=4` directive among its parameters. -/
theorem C5_submission_artifact_witness :
    "--nodes=4" ∈ (SLURMJobRequestData.mk "job" (some "4") none none none
        none none none none false none false none none none none none none
        none none none).get_cli_parameters :=
  (C5_submission_artifact _ "payload").2.2 SField.nodes "--nodes=4" rfl

/-- Claim C6: `try_stop` writes the stop sentinel, then bounded-waits up to
the timeout for the allocation to leave the RUNNING state; under the
modelling assumption that a stopped allocation stays stopped (`hmono`), if
the allocation stops within the budget — some accounting query up to and
including the post-wait `finally` check observes it not running — then
`scancel` is never called, and if it is still running at every query within
the budget then `scancel` is called exactly once (the single call site in
the `finally` block runs). -/
theorem C6_graceful_stop (running : Nat → Bool) (T : Nat)
    (hmono : ∀ i j, i ≤ j → running i = false → running j = false) :
    (SLURMIdleJob.try_stop running T).sentinel_write_attempted = true
      ∧ ((∃ i, i ≤ T ∧ running i = false) →
          (SLURMIdleJob.try_stop running T).cancel_called = false)
      ∧ ((∀ i, i ≤ T → running i = true) →
          (SLURMIdleJob.try_stop running T).cancel_called = true) := by
  have hcc : (SLURMIdleJob.try_stop running T).cancel_called
      = running (wait_until_run (fun i => !(running i)) T).2.1 := rfl
  refine ⟨rfl, fun hstop => ?_, fun hrun => ?_⟩
  · rw [hcc]
    cases hw : (wait_until_run (fun i => !(running i)) T).1 with
    | true =>
      obtain ⟨h1, h2, h3⟩ := wait_until_run_true T _ hw
      have hfalse : running ((wait_until_run (fun i => !(running i)) T).2.1 - 1)
          = false := by simpa using h3
      exact hmono _ _ (by omega) hfalse
    | false =>
      obtain ⟨he, hall⟩ := wait_until_run_false T _ hw
      obtain ⟨i, hi, hri⟩ := hstop
      have hrT : running T = false := by
        rcases Nat.lt_or_ge i T with hlt | hge
        · exfalso
          have hti : running i = true := by simpa using hall i hlt
          rw [hti] at hri
          exact Bool.noConfusion hri
        · exact le_antisymm hi hge ▸ hri
      rw [he]
      exact hrT
  · rw [hcc]
    cases hw : (wait_until_run (fun i => !(running i)) T).1 with
    | true =>
      obtain ⟨h1, h2, h3⟩ := wait_until_run_true T _ hw
      have hfalse : running ((wait_until_run (fun i => !(running i)) T).2.1 - 1)
          = false := by simpa using h3
      have hle : (wait_until_run (fun i => !(running i)) T).2.1 - 1 ≤ T := by
        omega
      rw [hrun _ hle] at hfalse
      exact absurd hfalse (by simp)
    | false =>
      obtain ⟨he, -⟩ := wait_until_run_false T _ hw
      rw [he]
      exact hrun T (le_refl T)

/-- Witness for C6: an allocation that never stops running is cancelled. -/
theorem C6_graceful_stop_witness :
    (SLURMIdleJob.try_stop (fun _ => true) 3).cancel_called = true :=
  (C6_graceful_stop (fun _ => true) 3 (fun _ _ _ h => h)).2.2 (fun _ _ => rfl)

/-- Claim C7: if the idle-loop payload does not exist, is not executable,
or is not readable, `create` logs a critical failure and returns `None`
without writing the submission script and without submitting anything. -/
theorem C7_create_payload_preconditions (p : IdlePayloadStatus)
    (sbatch_result : Option String) (exists_obs : Nat → Bool)
    (h : p.is_file = false ∨ p.executable = false ∨ p.readable = false) :
    SLURMIdleJob.create p sbatch_result exists_obs
      = (none, ⟨true, false, false⟩) := by
  rcases h with h | h | h <;> simp [SLURMIdleJob.create, h]

/-- Witness for C7: a missing payload file makes `create` fail fast. -/
theorem C7_create_payload_preconditions_witness :
    SLURMIdleJob.create ⟨false, true, true⟩ none (fun _ => false)
      = (none, ⟨true, false, false⟩) :=
  C7_create_payload_preconditions ⟨false, true, true⟩ none (fun _ => false)
    (Or.inl rfl)

/-- Claim C8 counterexample: a failing stop-sentinel write is not ignored —
`mark_stop` has no exception handler, so the error propagates to the
caller instead of being swallowed. -/
theorem C8_failing_write_propagates :
    SLURMIdleJob.mark_stop false none = Except.error "OSError" := rfl

/-- Claim C8, amended: `mark_stop` unconditionally (over)writes the
stop-sentinel file with a fixed message, and is idempotent — its outcome
does not depend on the sentinel's prior state, so a second call leaves the
same observable state; but errors from the write are not caught: when the
write cannot be performed the exception propagates to the caller (the
`try/finally` in `try_stop` has no `except` clause). -/
theorem C8_mark_stop_idempotent_but_raises (prior other : Option String) :
    SLURMIdleJob.mark_stop true prior = Except.ok (some stop_sentinel_content)
      ∧ SLURMIdleJob.mark_stop true prior = SLURMIdleJob.mark_stop true other
      ∧ SLURMIdleJob.mark_stop false prior = Except.error "OSError" :=
  ⟨rfl, rfl, rfl⟩

/-- Claim C9: converting any job-state enumeration member to its scheduler
code string never raises (the table's values cover the enumeration), and
parsing the produced code back yields the same member. -/
theorem C9_state_string_roundtrip (s : SLURMJobState) :
    (SLURMJobState.to_string s).isSome = true
      ∧ (SLURMJobState.to_string s).bind SLURMJobState.from_string = some s := by
  cases s <;> exact ⟨rfl, rfl⟩

/-- Claim C10: when reading the source script raises, `execute_script` has
already set the allocation's `current_execution` to the script name, and
its `finally` block still creates the canonical script file — through the
temporary file and the rename, so no temporary remains — with empty
content, before the exception propagates to the caller: the dispatch is
not atomic on a source-read error and the remote side can observe an empty
script. -/
theorem C10_dispatch_on_read_error (work_dir script_name err : String) :
    SLURMIdleJob.execute_script work_dir script_name
        (some (Except.error err))
      = (Except.error err,
         { current_execution := some script_name
           script_file := some ""
           tmp_file := none }) := rfl
